import Mathlib

namespace Scheduler

/-- Lexicographic byte-order on key characters: etcd orders keys bytewise;
keys here are ASCII (plus the 0xff range-end sentinel), where codepoint
order and byte order agree. -/
def charListLt : List Char → List Char → Bool
  | [], [] => false
  | [], _ :: _ => true
  | _ :: _, [] => false
  | a :: as, b :: bs =>
    a.val < b.val || (a.val == b.val && charListLt as bs)

def keyLt (a b : String) : Bool := charListLt a.data b.data

def keyLe (a b : String) : Bool := !(keyLt b a)

/-- model.GlobalTaskPrefixState: the key range holding serialized TaskState. -/
def GlobalTaskPrefixState : String := "/scheduler/task/state/"

def endGlobalTaskKey : String := GlobalTaskPrefixState ++ "\xff\xff\xff\xff\xff\xff\xff\xff"

/-- Insert into a sorted list: building block of the sorted range read that
the coordination service performs for clientv3.WithSort(SortByKey, order). -/
def insSorted {α : Type} (le : α → α → Bool) (x : α) : List α → List α
  | [] => [x]
  | y :: ys => if le x y then x :: y :: ys else y :: insSorted le x ys

/-- Sorted order of a key range, as returned by the coordination service. -/
def sortKvs {α : Type} (le : α → α → Bool) : List α → List α
  | [] => []
  | x :: xs => insSorted le x (sortKvs le xs)

/-- Modelled from the spec: model.FullGlobalTaskPath is not under src/;
spec §6 gives the layout /scheduler/task/global/<taskName> for the serialized
TaskDefinition. -/
def FullGlobalTaskPath (taskName : String) : String :=
  "/scheduler/task/global/" ++ taskName

/-- Modelled from the spec: model.FullGlobalTaskStatePath is not under src/;
spec §6 gives /scheduler/task/state/<taskName> for the serialized TaskState. -/
def FullGlobalTaskStatePath (taskName : String) : String :=
  GlobalTaskPrefixState ++ taskName

/-- Modelled from the spec: model.FullRuntimeNodePath is not under src/;
spec §6 gives /scheduler/runtime/node/<name> for a worker address. -/
def FullRuntimeNodePath (name : String) : String :=
  "/scheduler/runtime/node/" ++ name

/-- Modelled from the spec: model.FullGateNodePath is not under src/;
spec §6 gives /scheduler/gate/node/<name> for the gateway address. -/
def FullGateNodePath (name : String) : String :=
  "/scheduler/gate/node/" ++ name

/-- Modelled from the spec: model.CanRun, the initial TaskState written by
create (spec §4.2: state = CanRun). -/
def CanRun : String := "CanRun"

/-- The coordination-service key-value store (etcd), one value per key. -/
abbrev Store := List (String × String)

/-- Point read: first binding of the key. -/
def sget (st : Store) (k : String) : Option String :=
  (st.find? (fun p => p.1 == k)).map (fun p => p.2)

/-- Put: overwrite the binding of the key. -/
def sput (st : Store) (k v : String) : Store :=
  st.filter (fun p => p.1 != k) ++ [(k, v)]

/-- etcd assigns CreateRevision 0 exactly to keys that do not exist, so the
transaction guard CreateRevision(k) = 0 tests absence of k. -/
def createRevisionIsZero (st : Store) (k : String) : Bool :=
  (sget st k).isNone

/-- Outcome written to the HTTP response by a gate handler: Gate.error writes
status 500 with a code and message (gate.go 164-169), Gate.ok writes status
200 (gate.go 158-161); nilPanic models a nil-pointer dereference aborting the
handler. -/
inductive HandlerOutcome where
  | errorResp (code : Nat) (msg : String)
  | okResp
  | nilPanic
deriving DecidableEq

/-- The conditional transaction of createTask (gate.go 196-201):
If(Compare(CreateRevision(defKey) = 0)) Then(OpPut defKey body,
OpPut stateKey CanRun) Else(). Returns the Succeeded flag and the store after
commit; the two puts of the Then branch apply in one atomic commit or not at
all. -/
def createTxn (st : Store) (taskName body : String) : Bool × Store :=
  if createRevisionIsZero st (FullGlobalTaskPath taskName) then
    (true, sput (sput st (FullGlobalTaskPath taskName) body)
      (FullGlobalTaskStatePath taskName) CanRun)
  else
    (false, st)

/-- A keys-only Get of a single key (gate.go 184, clientv3.WithKeysOnly):
the response Kvs holds the key if present, values stripped. -/
def keysOnlyGet (st : Store) (k : String) : List String :=
  match sget st k with
  | some _ => [k]
  | none => []

/-- createTask (gate.go 172-215), after a successful request bind, with the
duplicate-check read's result passed in explicitly: readKvs = some kvs is a
successful keys-only Get returning kvs, none is a failed Get (nil response,
non-nil error). The handler never examines that read's err and dereferences
rsp unconditionally (gate.go 184-185), so a nil response is a nil-pointer
dereference, modelled as nilPanic. body is the json.Marshal serialization of
the bound request. The commit itself is modelled as reaching the store (a
commit transport error is an external fault outside the pure store). -/
def createTaskWithRead (readKvs : Option (List String)) (st : Store)
    (taskName body : String) : HandlerOutcome × Store :=
  match readKvs with
  | none => (HandlerOutcome.nilPanic, st)
  | some kvs =>
    if kvs.length > 0 then
      (HandlerOutcome.errorResp 500 ("duplicate creation:" ++ FullGlobalTaskPath taskName), st)
    else
      match createTxn st taskName body with
      | (true, st2) => (HandlerOutcome.okResp, st2)
      | (false, st2) => (HandlerOutcome.errorResp 500 "事务失败", st2)

/-- createTask with the duplicate-check read answered from the store. -/
def createTask (st : Store) (taskName body : String) : HandlerOutcome × Store :=
  createTaskWithRead (some (keysOnlyGet st (FullGlobalTaskPath taskName))) st taskName body

/-- One second, with durations as int64 nanoseconds (Go time.Duration). -/
def second : Int := 1000000000

/-- Gate configuration fields used by init, getAddress, registerGateNode and
SubMain (gate.go 29-40). -/
structure GateCfg where
  serverAddr : String
  autoFindAddr : Bool
  namePrefix : String
  name : String
  leaseTime : Int
deriving DecidableEq

/-- Gate.NodeName (gate.go 42-44): Sprintf %s-%s of the prefix and the name. -/
def nodeName (g : GateCfg) : String :=
  g.namePrefix ++ "-" ++ g.name

/-- The LeaseTime clamp in Gate.init (gate.go 60-62): a LeaseTime below
model.RuntimeKeepalive becomes RuntimeKeepalive + one second; the
RuntimeKeepalive constant lives in the model package and is left as a
parameter. -/
def clampLeaseTime (runtimeKeepalive leaseTime : Int) : Int :=
  if leaseTime < runtimeKeepalive then runtimeKeepalive + second else leaseTime

/-- Gate.getAddress (gate.go 72-81); utils.GetUnusedAddr is not under src/,
its result is the unusedAddr parameter. -/
def getAddress (g : GateCfg) (unusedAddr : String) : String :=
  if g.serverAddr ≠ "" then g.serverAddr
  else if g.autoFindAddr then unusedAddr
  else ""

/-- Result of Gate.registerGateNode (gate.go 85-99): panicked models the
panic on an empty startup address; regError models a non-nil error from
utils.NewLeaseWithKeepalive or from the Put (coordination service
unreachable); registered is the successful lease-backed Put. -/
inductive RegOutcome where
  | panicked
  | regError
  | registered
deriving DecidableEq

/-- Gate.registerGateNode (gate.go 85-99): leaseOk and putOk say whether the
lease creation and the Put reach the coordination service. -/
def registerGateNode (g : GateCfg) (unusedAddr : String) (leaseOk putOk : Bool) :
    RegOutcome :=
  if getAddress g unusedAddr = "" then RegOutcome.panicked
  else if !leaseOk then RegOutcome.regError
  else if !putOk then RegOutcome.regError
  else RegOutcome.registered

/-- Observable fate of the process after SubMain's startup sequence
(gate.go 233-248): aborted by panic, or running with the gate node
registered or not. -/
inductive StartupResult where
  | aborted
  | running (gateRegistered : Bool)
deriving DecidableEq

/-- SubMain's startup (gate.go 233-239): a failed init panics; then
registerGateNode runs in a goroutine (go r.registerGateNode()) whose error
result is discarded — an unrecovered panic in that goroutine still crashes
the process, but a returned error leaves the process serving with the gate
node unregistered. -/
def subMainStartup (g : GateCfg) (initOk : Bool) (unusedAddr : String)
    (leaseOk putOk : Bool) : StartupResult :=
  if !initOk then StartupResult.aborted
  else
    match registerGateNode g unusedAddr leaseOk putOk with
    | RegOutcome.panicked => StartupResult.aborted
    | RegOutcome.regError => StartupResult.running false
    | RegOutcome.registered => StartupResult.running true

/-- The runtime-node registration Put of registerRuntimeWithKeepalive
(gate.go 102-110): the key-value pair written when the lease is obtained.
The body ignores its runtimeName argument: the Put uses the gate's own
NodeName() as the path component and the gate's ServerAddr as the value. -/
def registerRuntimePut (g : GateCfg) (runtimeName : String) : String × String :=
  (FullRuntimeNodePath (nodeName g), g.serverAddr)

/-- A command pushed to a bound worker over its session. -/
inductive WorkerCmd where
  | stopCmd (taskName : String)
deriving DecidableEq

/-- Gate.stopTask (gate.go 228-230): the handler body is empty — it reads
nothing, writes nothing to the store and forwards no command. -/
def stopTask (st : Store) (taskName : String) : Store × List WorkerCmd :=
  (st, [])

/-- One observable action of a worker session against the coordination
service: the lease-backed registration started on the first message
(go registerRuntimeWithKeepalive, gate.go 141) or one KeepAliveOnce renewal
(gate.go 112), each tagged with the receipt time of the message that caused
it. -/
inductive SessionAction where
  | register (runtimeName : String)
  | keepAliveOnce
deriving DecidableEq

/-- The stream read loop (gate.go 129-155) over the messages the transport
delivers, each as (receipt time, whoami name): the first message starts the
registration goroutine, every later one sends a token on the keepalive
channel, and the goroutine answers each token with exactly one KeepAliveOnce
(gate.go 111-113); the list ends where ReadJSON fails or the peer closes, so
the trace is the complete action history of the session. The lease creation
is taken as successful; a failed NewLease leaves no lease to renew. -/
def streamLoop : Bool → List (Int × String) → List (Int × SessionAction)
  | _, [] => []
  | first, (t, m) :: rest =>
    if first then (t, SessionAction.register m) :: streamLoop false rest
    else (t, SessionAction.keepAliveOnce) :: streamLoop false rest

/-- Gate.stream enters its loop with first = true (gate.go 129). -/
def streamTrace (msgs : List (Int × String)) : List (Int × SessionAction) :=
  streamLoop true msgs

/-- The times at which the session renews its lease. -/
def renewTimes (tr : List (Int × SessionAction)) : List Int :=
  (tr.filter (fun p => p.2 == SessionAction.keepAliveOnce)).map (fun p => p.1)

/-- Expiry of a lease created at t0 with the given TTL under the renewals of
the trace: one TTL after the last renewal (or after creation, absent any). -/
def leaseExpiry (t0 ttl : Int) (tr : List (Int × SessionAction)) : Int :=
  List.foldl max t0 (renewTimes tr) + ttl

/-- Whether pre is a prefix of s (Go strings.HasPrefix, and the key test of
an etcd WithPrefix read). -/
def hasStrPre (pre s : String) : Bool := pre.data.isPrefixOf s.data

/-- The TaskState fields as decoded by model.ValueToState. Modelled from the
spec: the model package is not under src/; spec §3 lists the TaskState fields
(times as int64 nanoseconds). -/
structure TaskState where
  taskID : String
  taskName : String
  state : String
  action : String
  runtimeNode : String
  inRuntime : Bool
  createTime : Int
  updateTime : Int
deriving DecidableEq

/-- stateRsp (part_000 22-31), one item of the json status envelope. -/
structure StateRsp where
  taskID : String
  taskName : String
  action : String
  runtimeNode : String
  inRuntime : Bool
  createTime : Int
  updateTime : Int
  ip : String
deriving DecidableEq

/-- deepcopy.Copy(&status, &s).Do() (part_000 118): fields of the same name
are copied from the decoded state; stateRsp.Ip has no counterpart in the
state and keeps its zero value "". -/
def stateToRsp (s : TaskState) : StateRsp :=
  ⟨s.taskID, s.taskName, s.action, s.runtimeNode, s.inRuntime,
    s.createTime, s.updateTime, ""⟩

/-- model.StatusRequest: id, startKey, limit, sort, format
(part_000 45, spec §6 query contract). -/
structure StatusRequest where
  id : String
  startKey : String
  limit : Int
  sort : String
  format : String
deriving DecidableEq

/-- What the status handler writes back: error2's code-message 500, the
rendered table (tablewriter rendering is out of scope per spec §1, the rows
are kept as decoded state plus resolved ip), the json wrapData envelope, or
nothing when the format is neither table nor json (part_000 112-143). -/
inductive StatusOutcome where
  | statusErr (code : Nat) (msg : String)
  | tableOut (rows : List (TaskState × String))
  | jsonOut (total : Nat) (items : List StateRsp) (startKey : String)
  | emptyOut
deriving DecidableEq

/-- clientv3 Get with WithRange(endKey), WithSort(SortByKey, order) and
WithLimit(limit) (part_000 68-72): the stored keys in [startKey, endKey),
sorted ascending or descending by key, truncated to limit entries. -/
def rangeGet (st : Store) (startKey endKey : String) (desc : Bool) (limit : Int) :
    List (String × String) :=
  let inR := st.filter (fun p => keyLe startKey p.1 && keyLt p.1 endKey)
  let sorted :=
    if desc then sortKvs (fun a b => keyLe b.1 a.1) inR
    else sortKvs (fun a b => keyLe a.1 b.1) inR
  sorted.take limit.toNat

/-- clientv3 Get with WithCountOnly and WithPrefix (part_000 78): the number
of stored keys carrying the prefix. -/
def prefixCount (st : Store) (pre : String) : Nat :=
  (st.filter (fun p => hasStrPre pre p.1)).length

/-- The body of the status loop (part_000 92-122): decode each TaskState; for
a non-empty RuntimeNode resolve the node address by a best-effort point
lookup (a missing node record leaves the ip empty); a decode failure aborts
the handler. Returns the decoded state with its resolved ip per row. -/
def buildRows (st : Store) (decode : String → Option TaskState) :
    List (String × String) → Option (List (TaskState × String))
  | [] => some []
  | kv :: rest =>
    match decode kv.2 with
    | none => none
    | some s =>
      let ip :=
        if s.runtimeNode.length > 0 then
          match sget st s.runtimeNode with
          | some v => v
          | none => ""
        else ""
      match buildRows st decode rest with
      | none => none
      | some l => some ((s, ip) :: l)

/-- Gate.status (part_000 44-144) after a successful query bind: limit 0
defaults to 10; the start key is the request's startKey when id is empty and
startKey non-empty, else the state prefix; a sort token starting with "-"
sorts descending; the page is a range read with that limit, the total a
separate count-only prefix read; the json envelope carries {total, items,
startKey} where startKey is the very variable the page was read from. decode
stands for model.ValueToState (model package, not under src/). -/
def status (st : Store) (decode : String → Option TaskState) (p : StatusRequest) :
    StatusOutcome :=
  let limit := if p.limit = 0 then 10 else p.limit
  let startKey := if p.id == "" && p.startKey != "" then p.startKey else GlobalTaskPrefixState
  let desc := hasStrPre "-" p.sort
  let kvs := rangeGet st startKey endGlobalTaskKey desc limit
  let total := prefixCount st GlobalTaskPrefixState
  match buildRows st decode kvs with
  | none => StatusOutcome.statusErr 500 "ValueToState"
  | some rows =>
    if p.format == "table" then StatusOutcome.tableOut rows
    else if p.format == "json" then
      StatusOutcome.jsonOut total (rows.map (fun r => stateToRsp r.1)) startKey
    else StatusOutcome.emptyOut

/-- Three TaskState records stored under the state prefix. -/
def stC3 : Store :=
  [(FullGlobalTaskStatePath "a", "a"), (FullGlobalTaskStatePath "b", "b"),
    (FullGlobalTaskStatePath "c", "c")]

/-- A decoder reading the stored value as id and name of a CanRun state bound
to no runtime node. -/
def decC3 : String → Option TaskState :=
  fun v => some ⟨v, v, CanRun, "", "", false, 0, 0⟩

theorem length_insSorted {α : Type} (le : α → α → Bool) (x : α) :
    ∀ l : List α, (insSorted le x l).length = l.length + 1 := by
  intro l
  induction l with
  | nil => rfl
  | cons y ys ih =>
    simp only [insSorted]
    by_cases h : le x y = true
    · simp [h]
    · simp [h, ih]

theorem length_sortKvs {α : Type} (le : α → α → Bool) :
    ∀ l : List α, (sortKvs le l).length = l.length := by
  intro l
  induction l with
  | nil => rfl
  | cons y ys ih => simp [sortKvs, length_insSorted, ih]

theorem sget_sput_self (st : Store) (k v : String) :
    sget (sput st k v) k = some v := by
  induction st with
  | nil => simp [sget, sput]
  | cons p ps ih =>
    by_cases hpe : p.1 = k <;>
      simp_all [sget, sput, List.filter_cons]

theorem sget_sput_ne (st : Store) (k k' v : String) (h : k' ≠ k) :
    sget (sput st k v) k' = sget st k' := by
  have h' : ¬ (k = k') := fun he => h he.symm
  induction st with
  | nil => simp_all [sget, sput]
  | cons p ps ih =>
    by_cases hpe : p.1 = k <;> by_cases hpk : p.1 = k' <;>
      simp_all [sget, sput, List.filter_cons]

theorem charListLt_irrefl : ∀ l : List Char, charListLt l l = false := by
  intro l
  induction l with
  | nil => rfl
  | cons c cs ih => simp [charListLt, ih]

/-- The definition key and the state key of one taskName differ (their fixed
directory components differ at the seventeenth character). -/
theorem globalPath_ne_statePath (n : String) :
    FullGlobalTaskPath n ≠ FullGlobalTaskStatePath n := by
  have hlt : keyLt (FullGlobalTaskPath n) (FullGlobalTaskStatePath n) = true := by
    obtain ⟨l⟩ := n
    rfl
  intro h
  rw [h] at hlt
  have hirr : keyLt (FullGlobalTaskStatePath n) (FullGlobalTaskStatePath n) = false :=
    charListLt_irrefl _
  rw [hlt] at hirr
  exact Bool.noConfusion hirr

/-- C1 counterexample: a create that fails (duplicate) does not leave the
TaskDefinition key absent — after creating build-1 and then failing to create
it again, the definition key still exists, so "after any failed create neither
key exists for that taskName" is false as stated. -/
theorem claimC1_counterexample :
    (createTask (createTask [] "build-1" "B").2 "build-1" "B").1 ≠ HandlerOutcome.okResp ∧
    sget (createTask (createTask [] "build-1" "B").2 "build-1" "B").2
      (FullGlobalTaskPath "build-1") ≠ none := by
  decide

/-- C1 (amended): the create write is the conditional transaction guarded on
CreateRevision(definition key) = 0; when the transaction succeeds, the
TaskDefinition key and the initial TaskState key (value CanRun) are written in
the same atomic commit; when the transaction fails, and likewise after any
failed createTask, the store is unchanged for that taskName — a failed create
never leaves a partial write, so if neither key existed before the request,
neither exists after. -/
theorem claimC1_create_atomic (st : Store) (n body : String) :
    ((createTxn st n body).1 = createRevisionIsZero st (FullGlobalTaskPath n))
    ∧ ((createTxn st n body).1 = true →
        sget (createTxn st n body).2 (FullGlobalTaskPath n) = some body ∧
        sget (createTxn st n body).2 (FullGlobalTaskStatePath n) = some CanRun)
    ∧ ((createTxn st n body).1 = false → (createTxn st n body).2 = st)
    ∧ ((createTask st n body).1 ≠ HandlerOutcome.okResp → (createTask st n body).2 = st) := by
  refine ⟨?_, ?_, ?_, ?_⟩
  · by_cases hz : createRevisionIsZero st (FullGlobalTaskPath n) <;>
      simp [createTxn, hz]
  · intro h
    by_cases hz : createRevisionIsZero st (FullGlobalTaskPath n)
    · simp only [createTxn, hz, if_true]
      exact ⟨by
        rw [sget_sput_ne _ _ _ _ (globalPath_ne_statePath n)]
        exact sget_sput_self _ _ _,
        sget_sput_self _ _ _⟩
    · simp [createTxn, hz] at h
  · intro h
    by_cases hz : createRevisionIsZero st (FullGlobalTaskPath n)
    · simp [createTxn, hz] at h
    · simp [createTxn, hz]
  · intro h
    cases hg : sget st (FullGlobalTaskPath n) with
    | some v => simp [createTask, createTaskWithRead, keysOnlyGet, hg]
    | none =>
      exfalso
      apply h
      simp [createTask, createTaskWithRead, keysOnlyGet, createTxn,
        createRevisionIsZero, hg]

/-- C1 witness: on the empty store the transaction for build-1 succeeds and
both keys are written. -/
theorem claimC1_create_atomic_witness :
    sget (createTxn [] "build-1" "B").2 (FullGlobalTaskPath "build-1") = some "B" ∧
    sget (createTxn [] "build-1" "B").2 (FullGlobalTaskStatePath "build-1") = some CanRun :=
  (claimC1_create_atomic [] "build-1" "B").2.1 (by decide)

/-- C2: createTask answers the 500 duplicate-creation error exactly when a
TaskDefinition is already stored under the taskName, succeeds otherwise, and
creating the same name twice in succession yields one success then one
duplicate error. -/
theorem claimC2_create_duplicate (st : Store) (n body body2 : String) :
    ((sget st (FullGlobalTaskPath n)).isSome →
      (createTask st n body).1 =
        HandlerOutcome.errorResp 500 ("duplicate creation:" ++ FullGlobalTaskPath n))
    ∧ (sget st (FullGlobalTaskPath n) = none →
      (createTask st n body).1 = HandlerOutcome.okResp)
    ∧ ((createTask st n body).1 = HandlerOutcome.okResp →
      (createTask (createTask st n body).2 n body2).1 =
        HandlerOutcome.errorResp 500 ("duplicate creation:" ++ FullGlobalTaskPath n)) := by
  refine ⟨?_, ?_, ?_⟩
  · intro h
    obtain ⟨v, hv⟩ := Option.isSome_iff_exists.mp h
    simp [createTask, createTaskWithRead, keysOnlyGet, hv]
  · intro h
    simp [createTask, createTaskWithRead, keysOnlyGet, createTxn,
      createRevisionIsZero, h]
  · intro h
    cases hg : sget st (FullGlobalTaskPath n) with
    | some v =>
      rw [show (createTask st n body).1 =
          HandlerOutcome.errorResp 500 ("duplicate creation:" ++ FullGlobalTaskPath n) by
        simp [createTask, createTaskWithRead, keysOnlyGet, hg]] at h
      exact HandlerOutcome.noConfusion h
    | none =>
      have hst2 : (createTask st n body).2
          = sput (sput st (FullGlobalTaskPath n) body) (FullGlobalTaskStatePath n) CanRun := by
        simp [createTask, createTaskWithRead, keysOnlyGet, createTxn,
          createRevisionIsZero, hg]
      have hget : sget (createTask st n body).2 (FullGlobalTaskPath n) = some body := by
        rw [hst2, sget_sput_ne _ _ _ _ (globalPath_ne_statePath n)]
        exact sget_sput_self _ _ _
      generalize hq : (createTask st n body).2 = st2 at hget
      simp [createTask, createTaskWithRead, keysOnlyGet, hget]

/-- C2 witness: creating build-1 twice on the empty store gives one success
then one 500 duplicate-creation error. -/
theorem claimC2_create_duplicate_witness :
    (createTask [] "build-1" "B").1 = HandlerOutcome.okResp ∧
    (createTask (createTask [] "build-1" "B").2 "build-1" "B").1 =
      HandlerOutcome.errorResp 500 ("duplicate creation:" ++ FullGlobalTaskPath "build-1") := by
  refine ⟨(claimC2_create_duplicate [] "build-1" "B" "B").2.1 (by decide), ?_⟩
  exact (claimC2_create_duplicate [] "build-1" "B" "B").2.2
    ((claimC2_create_duplicate [] "build-1" "B" "B").2.1 (by decide))

/-- C10: when the keys-only duplicate-check read fails (nil response with a
non-nil error), createTask dereferences the nil response: the execution ends
in the nil-pointer panic and never in a uniform code-message error response —
there is no error branch for a failed optimization read. -/
theorem claimC10_read_error_unchecked (st : Store) (n body : String) :
    (createTaskWithRead none st n body).1 = HandlerOutcome.nilPanic
    ∧ (createTaskWithRead none st n body).2 = st
    ∧ ∀ code msg,
        (createTaskWithRead none st n body).1 ≠ HandlerOutcome.errorResp code msg :=
  ⟨rfl, rfl, fun _ _ h => HandlerOutcome.noConfusion h⟩

/-- C5 counterexample: with a configured listen address and a successful init,
a registration failure against the coordination service (failed lease
creation) does not abort the process — startup continues with the gateway
node unregistered, so the claim as stated is false. -/
theorem claimC5_counterexample :
    subMainStartup ⟨"10.0.0.1:8080", false, "gate", "g1", 4 * second⟩ true "" false true
      = StartupResult.running false ∧
    StartupResult.running false ≠ StartupResult.aborted := by
  decide

/-- C5 (amended): at startup, a missing listen address (no configured address
and auto-discovery disabled or yielding nothing) aborts the process via
panic; a coordination-service failure while registering the gateway's own
identity does not abort — the error is discarded because SubMain launches
registerGateNode in a goroutine, and startup continues with the gateway node
unregistered. -/
theorem claimC5_startup_registration (g : GateCfg) (unusedAddr : String)
    (leaseOk putOk : Bool) :
    (getAddress g unusedAddr = "" →
      subMainStartup g true unusedAddr leaseOk putOk = StartupResult.aborted)
    ∧ (getAddress g unusedAddr ≠ "" → (leaseOk = false ∨ putOk = false) →
      subMainStartup g true unusedAddr leaseOk putOk = StartupResult.running false) := by
  constructor
  · intro h
    simp [subMainStartup, registerGateNode, h]
  · intro h hfail
    cases hfail with
    | inl hl => simp [subMainStartup, registerGateNode, h, hl]
    | inr hp =>
      cases hl : leaseOk <;>
        simp [subMainStartup, registerGateNode, h, hl, hp]

/-- C5 witness: both amended branches at concrete configurations. -/
theorem claimC5_startup_registration_witness :
    subMainStartup ⟨"", false, "gate", "g1", 4 * second⟩ true "" true true
      = StartupResult.aborted ∧
    subMainStartup ⟨"10.0.0.1:8080", false, "gate", "g1", 4 * second⟩ true "" false true
      = StartupResult.running false :=
  ⟨(claimC5_startup_registration ⟨"", false, "gate", "g1", 4 * second⟩ "" true true).1
      (by decide),
    (claimC5_startup_registration ⟨"10.0.0.1:8080", false, "gate", "g1", 4 * second⟩
      "" false true).2 (by decide) (Or.inl rfl)⟩

/-- C7 counterexample: a configured lease time exactly equal to the keepalive
interval is left unchanged by the init clamp, so the effective TTL is not
strictly greater than the heartbeat interval — the claim as stated is false
at LeaseTime = RuntimeKeepalive = 4s. -/
theorem claimC7_counterexample :
    ¬ (4 * second < clampLeaseTime (4 * second) (4 * second)) := by
  decide

/-- C7 (amended): after init, the effective lease TTL is at least the
keepalive interval: a configured value strictly below the interval is clamped
to interval + 1s (strictly above); a value different from the interval always
yields a TTL strictly above it; but a value exactly equal to the interval is
kept, equal and not strictly greater. -/
theorem claimC7_lease_clamp (runtimeKeepalive leaseTime : Int) :
    runtimeKeepalive ≤ clampLeaseTime runtimeKeepalive leaseTime
    ∧ (leaseTime < runtimeKeepalive →
        clampLeaseTime runtimeKeepalive leaseTime = runtimeKeepalive + second)
    ∧ (leaseTime ≠ runtimeKeepalive →
        runtimeKeepalive < clampLeaseTime runtimeKeepalive leaseTime)
    ∧ clampLeaseTime runtimeKeepalive runtimeKeepalive = runtimeKeepalive := by
  refine ⟨?_, ?_, ?_, ?_⟩
  · by_cases h : leaseTime < runtimeKeepalive
    · simp only [clampLeaseTime, h, if_true]
      have : (0 : Int) < second := by decide
      omega
    · simp only [clampLeaseTime, h, if_false]
      omega
  · intro h
    simp [clampLeaseTime, h]
  · intro h
    by_cases hlt : leaseTime < runtimeKeepalive
    · simp only [clampLeaseTime, hlt, if_true]
      have : (0 : Int) < second := by decide
      omega
    · simp only [clampLeaseTime, hlt, if_false]
      omega
  · simp [clampLeaseTime]

/-- C7 witness: a 3s lease time against a 4s keepalive is clamped to 5s,
strictly above the interval. -/
theorem claimC7_lease_clamp_witness :
    clampLeaseTime (4 * second) (3 * second) = 4 * second + second :=
  (claimC7_lease_clamp (4 * second) (3 * second)).2.1 (by decide)

/-- C4: the node key written on a worker's first message is derived from the
gate's own identity, not from the worker's, and carries the gate's address —
for gate gate-g1 at 10.0.0.1:8080 and a worker whoami named worker-1, the
Put writes /scheduler/runtime/node/gate-g1 = 10.0.0.1:8080 instead of a key
derived from worker-1. -/
theorem claimC4_runtime_registration :
    (registerRuntimePut ⟨"10.0.0.1:8080", false, "gate", "g1", 4 * second⟩ "worker-1").1
      = FullRuntimeNodePath "gate-g1" ∧
    FullRuntimeNodePath "gate-g1" ≠ FullRuntimeNodePath "worker-1" ∧
    (registerRuntimePut ⟨"10.0.0.1:8080", false, "gate", "g1", 4 * second⟩ "worker-1").2
      = "10.0.0.1:8080" := by
  refine ⟨rfl, ?_, rfl⟩
  decide

/-- C6: stopTask is an unimplemented stub: over the store holding build-1
with action CanRun it neither updates the TaskState action nor forwards a
stop command to the bound worker (the part of the claim that it deletes no
record holds trivially, the store is untouched). -/
theorem claimC6_stop_stub :
    (stopTask (createTask [] "build-1" "B").2 "build-1").1 = (createTask [] "build-1" "B").2 ∧
    (stopTask (createTask [] "build-1" "B").2 "build-1").2 = [] ∧
    sget (stopTask (createTask [] "build-1" "B").2 "build-1").1
      (FullGlobalTaskStatePath "build-1") = some CanRun := by
  decide

theorem foldl_max_le (tEnd : Int) :
    ∀ (l : List Int) (t0 : Int), t0 ≤ tEnd → (∀ x ∈ l, x ≤ tEnd) →
      List.foldl max t0 l ≤ tEnd := by
  intro l
  induction l with
  | nil => intro t0 h0 _; simpa using h0
  | cons x xs ih =>
    intro t0 h0 hl
    simp only [List.foldl_cons]
    exact ih (max t0 x) (max_le h0 (hl x (List.mem_cons_self x xs)))
      (fun y hy => hl y (List.mem_cons_of_mem x hy))

theorem streamLoop_after_first (rest : List (Int × String)) :
    streamLoop false rest = rest.map (fun p => (p.1, SessionAction.keepAliveOnce)) := by
  induction rest with
  | nil => rfl
  | cons p ps ih => simp [streamLoop, ih]

theorem renewTimes_kao_map (rest : List (Int × String)) :
    renewTimes (rest.map (fun p => (p.1, SessionAction.keepAliveOnce)))
      = rest.map (fun p => p.1) := by
  induction rest with
  | nil => rfl
  | cons p ps ih =>
    simp only [List.map_cons, renewTimes, List.filter_cons] at ih ⊢
    simp [ih]

/-- C8: for a session whose transport delivers a first whoami and then
further messages, the complete trace is the registration followed by exactly
one KeepAliveOnce per later message at its receipt time — so each message
after the first triggers exactly one renewal, none is issued after the read
loop ends, and the lease (created at the first receipt) expires at most one
TTL after the last message time tEnd. -/
theorem claimC8_keepalive_per_message (t : Int) (m : String)
    (rest : List (Int × String)) (tEnd ttl : Int)
    (hbound : ∀ p ∈ (t, m) :: rest, p.1 ≤ tEnd) :
    streamTrace ((t, m) :: rest)
      = (t, SessionAction.register m)
        :: rest.map (fun p => (p.1, SessionAction.keepAliveOnce))
    ∧ (renewTimes (streamTrace ((t, m) :: rest))).length = rest.length
    ∧ leaseExpiry t ttl (streamTrace ((t, m) :: rest)) ≤ tEnd + ttl := by
  have htr : streamTrace ((t, m) :: rest)
      = (t, SessionAction.register m)
        :: rest.map (fun p => (p.1, SessionAction.keepAliveOnce)) := by
    simp [streamTrace, streamLoop, streamLoop_after_first]
  have hrt : renewTimes (streamTrace ((t, m) :: rest)) = rest.map (fun p => p.1) := by
    rw [htr]
    have hreg : renewTimes ((t, SessionAction.register m)
        :: rest.map (fun p => (p.1, SessionAction.keepAliveOnce)))
        = renewTimes (rest.map (fun p => (p.1, SessionAction.keepAliveOnce))) := by
      simp [renewTimes, List.filter_cons]
    rw [hreg, renewTimes_kao_map]
  refine ⟨htr, ?_, ?_⟩
  · rw [hrt, List.length_map]
  · unfold leaseExpiry
    rw [hrt]
    have h1 : t ≤ tEnd := hbound (t, m) (List.mem_cons_self _ _)
    have h2 : ∀ x ∈ rest.map (fun p => p.1), x ≤ tEnd := by
      intro x hx
      obtain ⟨p, hp, he⟩ := List.mem_map.mp hx
      rw [← he]
      exact hbound p (List.mem_cons_of_mem _ hp)
    exact Int.add_le_add_right (foldl_max_le tEnd _ t h1 h2) ttl

/-- C8 witness: a session delivering its whoami at time 0 and heartbeats at
times 1 and 2, with TTL 4: two renewals, and lease expiry by time 6. -/
theorem claimC8_keepalive_per_message_witness :
    streamTrace [(0, "worker-1"), (1, "worker-1"), (2, "worker-1")]
      = [(0, SessionAction.register "worker-1"), (1, SessionAction.keepAliveOnce),
          (2, SessionAction.keepAliveOnce)]
    ∧ (renewTimes (streamTrace [(0, "worker-1"), (1, "worker-1"), (2, "worker-1")])).length = 2
    ∧ leaseExpiry 0 4 (streamTrace [(0, "worker-1"), (1, "worker-1"), (2, "worker-1")]) ≤ 2 + 4 :=
  claimC8_keepalive_per_message 0 "worker-1" [(1, "worker-1"), (2, "worker-1")] 2 4
    (by decide)

theorem mem_insSorted {α : Type} (le : α → α → Bool) (x y : α) :
    ∀ l : List α, y ∈ insSorted le x l ↔ y = x ∨ y ∈ l := by
  intro l
  induction l with
  | nil => simp [insSorted]
  | cons a as ih =>
    simp only [insSorted]
    by_cases h : le x a = true
    · rw [if_pos h]
      simp only [List.mem_cons]
    · rw [if_neg h]
      simp only [List.mem_cons, ih]
      tauto

theorem mem_sortKvs {α : Type} (le : α → α → Bool) (y : α) :
    ∀ l : List α, y ∈ sortKvs le l ↔ y ∈ l := by
  intro l
  induction l with
  | nil => simp [sortKvs]
  | cons a as ih =>
    simp only [sortKvs, mem_insSorted, List.mem_cons, ih]

theorem buildRows_length (st : Store) (decode : String → Option TaskState) :
    ∀ kvs : List (String × String), (∀ kv ∈ kvs, (decode kv.2).isSome = true) →
      ∃ rows, buildRows st decode kvs = some rows ∧ rows.length = kvs.length := by
  intro kvs
  induction kvs with
  | nil => intro _; exact ⟨[], rfl, rfl⟩
  | cons kv rest ih =>
    intro h
    obtain ⟨s, hs⟩ := Option.isSome_iff_exists.mp (h kv (List.mem_cons_self _ _))
    obtain ⟨rows, hrows, hlen⟩ := ih (fun kv2 h2 => h kv2 (List.mem_cons_of_mem _ h2))
    refine ⟨(s, if s.runtimeNode.length > 0 then
        (match sget st s.runtimeNode with
          | some v => v
          | none => "")
      else "") :: rows, ?_, by simp [hlen]⟩
    simp [buildRows, hs, hrows]

/-- C9: over a snapshot of TaskState records all lying in the state range and
all decodable, a status query with format json and a positive limit L ≤ N
returns exactly L items and total = N (the separate count over the state
prefix); and a request with limit 0 behaves exactly as one with limit 10. -/
theorem claimC9_status_limit (st : Store) (decode : String → Option TaskState) (L : Int)
    (hkeys : ∀ kv ∈ st, (keyLe GlobalTaskPrefixState kv.1 && keyLt kv.1 endGlobalTaskKey) = true)
    (hpre : ∀ kv ∈ st, hasStrPre GlobalTaskPrefixState kv.1 = true)
    (hdec : ∀ kv ∈ st, (decode kv.2).isSome = true)
    (hL : 0 < L) (hLN : L.toNat ≤ st.length) :
    (∃ items, status st decode ⟨"", "", L, "", "json"⟩
        = StatusOutcome.jsonOut st.length items GlobalTaskPrefixState
      ∧ items.length = L.toNat)
    ∧ status st decode ⟨"", "", 0, "", "json"⟩ = status st decode ⟨"", "", 10, "", "json"⟩ := by
  constructor
  · have hfil : st.filter (fun p => keyLe GlobalTaskPrefixState p.1 && keyLt p.1 endGlobalTaskKey)
        = st := List.filter_eq_self.mpr hkeys
    have hLne : ¬ (L = 0) := by omega
    have hdash : hasStrPre "-" "" = false := by decide
    have hstat : status st decode ⟨"", "", L, "", "json"⟩
        = match buildRows st decode
            ((sortKvs (fun a b : String × String => keyLe a.1 b.1) st).take L.toNat) with
          | none => StatusOutcome.statusErr 500 "ValueToState"
          | some rows => StatusOutcome.jsonOut (prefixCount st GlobalTaskPrefixState)
              (rows.map (fun r => stateToRsp r.1)) GlobalTaskPrefixState := by
      simp only [status, rangeGet, hdash, hfil, hLne, if_false, if_true, Bool.false_eq_true,
        bne_self_eq_false, Bool.and_false, beq_self_eq_true]
      simp [hLne]
    obtain ⟨rows, hrows, hrlen⟩ := buildRows_length st decode
      ((sortKvs (fun a b : String × String => keyLe a.1 b.1) st).take L.toNat)
      (fun kv hkv => hdec kv ((mem_sortKvs _ _ _).mp (List.take_subset _ _ hkv)))
    have htotal : prefixCount st GlobalTaskPrefixState = st.length := by
      unfold prefixCount
      rw [List.filter_eq_self.mpr hpre]
    have hklen : ((sortKvs (fun a b : String × String => keyLe a.1 b.1) st).take L.toNat).length
        = L.toNat := by
      rw [List.length_take, length_sortKvs]
      omega
    refine ⟨rows.map (fun r => stateToRsp r.1), ?_, by simp [hrlen, hklen]⟩
    rw [hstat, hrows, htotal]
  · simp only [status]
    norm_num

/-- C9 witness: limit 2 over the three-record snapshot returns two items and
total 3, and limit 0 coincides with limit 10. -/
theorem claimC9_status_limit_witness :
    (∃ items, status stC3 decC3 ⟨"", "", 2, "", "json"⟩
        = StatusOutcome.jsonOut stC3.length items GlobalTaskPrefixState
      ∧ items.length = (2 : Int).toNat)
    ∧ status stC3 decC3 ⟨"", "", 0, "", "json"⟩ = status stC3 decC3 ⟨"", "", 10, "", "json"⟩ :=
  claimC9_status_limit stC3 decC3 2 (by decide) (by decide) (by decide)
    (by decide) (by decide)

/-- C3: the start_key carried by a status response is the start key the page
was read from, not a next-page cursor — over three records a, b, c with
limit 2 the first response returns items a, b and start_key equal to the
state prefix itself, and a second request issued from that returned start_key
returns the same items a, b again: following the returned key duplicates the
first page forever and never reaches c, so consecutive requests cannot
reproduce the full sequence. -/
theorem claimC3_startKey_not_advanced :
    status stC3 decC3 ⟨"", "", 2, "", "json"⟩
      = StatusOutcome.jsonOut 3
          [⟨"a", "a", "", "", false, 0, 0, ""⟩, ⟨"b", "b", "", "", false, 0, 0, ""⟩]
          GlobalTaskPrefixState
    ∧ status stC3 decC3 ⟨"", GlobalTaskPrefixState, 2, "", "json"⟩
      = StatusOutcome.jsonOut 3
          [⟨"a", "a", "", "", false, 0, 0, ""⟩, ⟨"b", "b", "", "", false, 0, 0, ""⟩]
          GlobalTaskPrefixState := by
  decide

example : keyLt "abc" "abd" = true := by decide

example : keyLe GlobalTaskPrefixState (GlobalTaskPrefixState ++ "a") = true := by decide

example : keyLt (GlobalTaskPrefixState ++ "a") endGlobalTaskKey = true := by decide

example : sortKvs keyLe ["b", "a"] = ["a", "b"] := by decide

end Scheduler
